import Mathlib

/-!
Verification of the nurse shift scheduling application (`src/app.py`).

The program builds a CP-SAT model over an 84-day master pattern
(12 weeks x 7 days), rotates the solved pattern by 7 days per nurse to
materialize a day-by-nurse grid, supports a two-cell exchange on that
grid, and renders a per-nurse week-by-weekday pivot table.

Shallow embedding conventions:
* Shift cells are the strings used by the program: "D" (day shift),
  "N" (night shift), "" (off).
* Python's non-negative `%` on possibly negative numbers is embedded via
  `Int.emod` (which is non-negative for a positive modulus) and `Int.toNat`.
* Calendar dates are embedded as natural numbers counting days since a
  fixed epoch Monday, so that `t % 7` is Python's `date.weekday()`
  (Monday = 0, ..., Sunday = 6).
* CP-SAT boolean variables `y[d, s]` are an assignment function
  `y : Nat → Nat → Bool`; each constraint the program adds to the model
  becomes one bounded-quantifier proposition over the assignment.
-/

/-- num_weeks = 12 from `src/app.py`. -/
def numWeeks : Nat := 12

/-- days_per_week = 7 from `src/app.py`. -/
def daysPerWeek : Nat := 7

/-- horizon = num_weeks * days_per_week = 84 days. -/
def horizon : Nat := numWeeks * daysPerWeek

/-- master_index(n, d) = (d - n * days_per_week) % horizon with Python's
non-negative modulo, from `src/app.py` line 186. -/
def master_index (n d : Nat) : Nat :=
  (((d : Int) - (n : Int) * (daysPerWeek : Int)) % (horizon : Int)).toNat

/-- group = [r + 7 * w for w in range(num_weeks) if r + 7 * w < horizon],
the residue class of r modulo 7 inside the horizon (`src/app.py` line 181). -/
def residueGroup (r : Nat) : List Nat :=
  ((List.range numWeeks).map (fun w => r + 7 * w)).filter (fun i => i < horizon)

/-- overall_schedule[d, n] = master_pattern[(d - n * 7) % 84]
(`src/app.py` lines 258-262); out-of-range reads default to "" which never
happens for an 84-entry pattern. -/
def overall_schedule (p : List String) (d n : Nat) : String :=
  p.getD (master_index n d) ""

/-- Row of the materialized grid for calendar day d: the 12 nurse cells. -/
def gridRow (p : List String) (d : Nat) : List String :=
  (List.range 12).map (fun n => overall_schedule p d n)

/-- residue-class staffing condition on a master pattern: in every residue
class modulo 7, exactly 3 entries are "D" and exactly 2 are "N"
(the solved form of the constraints at `src/app.py` lines 179-183). -/
def residueStaffingOk (p : List String) : Prop :=
  ∀ r < 7, ((residueGroup r).map (fun i => p.getD i "")).count "D" = 3 ∧
    ((residueGroup r).map (fun i => p.getD i "")).count "N" = 2

/-- Grid of shift labels indexed by (calendar day, nurse index). -/
abbrev Grid := Nat → Nat → String

/-- Write value v at cell (d0, n0) of the grid, as a single numpy-style
cell assignment. -/
def setCell (g : Grid) (d0 n0 : Nat) (v : String) : Grid :=
  fun d n => if d = d0 ∧ n = n0 then v else g d n

/-- exchange button handler (`src/app.py` lines 283-289): read the two
cells; if both are "" report failure and leave the grid alone, otherwise
perform the two sequential cell writes. Returns (success flag, grid). -/
def exchangeShifts (g : Grid) (day_a nurse_a day_b nurse_b : Nat) :
    Bool × Grid :=
  let cell_a := g day_a nurse_a
  let cell_b := g day_b nurse_b
  if cell_a = "" ∧ cell_b = "" then
    (false, g)
  else
    (true, setCell (setCell g day_a nurse_a cell_b) day_b nurse_b cell_a)

/-- Session state mirroring st.session_state: master_schedule, nurse_names,
start_date (`src/app.py` lines 125-130). -/
structure Session where
  master_schedule : Option (List String)
  nurse_names : Option (List String)
  start_date : Option Nat
deriving DecidableEq

/-- CP-SAT solver status values relevant to `src/app.py` line 229. -/
inductive CpStatus where
  | OPTIMAL
  | FEASIBLE
  | INFEASIBLE
  | MODEL_INVALID
  | UNKNOWN
deriving DecidableEq

/-- master_pattern built from the solver values (`src/app.py` lines 231-238):
"D" when y[d,0] is set, else "N" when y[d,1] is set, else "". -/
def buildMasterPattern (y : Nat → Nat → Bool) : List String :=
  (List.range horizon).map (fun d => if y d 0 then "D" else if y d 1 then "N" else "")

/-- Status handling after Solve (`src/app.py` lines 229-243): on OPTIMAL or
FEASIBLE, commit master pattern, names and start date together and succeed;
otherwise report an error and leave the session untouched. -/
def solveCommit (st : Session) (status : CpStatus) (y : Nat → Nat → Bool)
    (valid_names : List String) (sd : Nat) : Session × Bool :=
  if status = CpStatus.OPTIMAL ∨ status = CpStatus.FEASIBLE then
    ({ master_schedule := some (buildMasterPattern y),
       nurse_names := some valid_names,
       start_date := some sd }, true)
  else
    (st, false)

/-- Result of a click on the generate button: the session afterwards,
whether generation succeeded, and whether the solver was invoked. -/
structure GenResult where
  session : Session
  success : Bool
  solverInvoked : Bool
deriving DecidableEq

/-- stripName models Python's str.strip() on a name: drop whitespace
characters from both ends (executable over the character list so that the
kernel can evaluate it, which Lean's String.trim cannot). -/
def stripName (s : String) : String :=
  ⟨((s.data.dropWhile Char.isWhitespace).reverse.dropWhile
      Char.isWhitespace).reverse⟩

/-- generate button handler (`src/app.py` lines 146-158 and 229-243): names
are stripped on input (line 149), the non-empty ones are collected, and if
their number differs from 12 a validation error is reported without building
the model or calling the solver; otherwise the solver outcome (status, y) is
committed by `solveCommit`. -/
def generateClick (st : Session) (raw_names : List String) (status : CpStatus)
    (y : Nat → Nat → Bool) (sd : Nat) : GenResult :=
  let nurse_names := raw_names.map (fun s => stripName s)
  let valid_names := nurse_names.filter (fun nm => nm ≠ "")
  if valid_names.length ≠ 12 then
    { session := st, success := false, solverInvoked := false }
  else
    let r := solveCommit st status y valid_names sd
    { session := r.1, success := r.2, solverInvoked := true }

/-- Numeric value of a CP-SAT boolean variable. -/
def b2n (b : Bool) : Nat := if b then 1 else 0

/-- y[i, 0] + y[i, 1]: how many shifts are worked at master index i. -/
def workedAt (y : Nat → Nat → Bool) (i : Nat) : Nat :=
  b2n (y i 0) + b2n (y i 1)

/-- indices = [master_index(n, d + i) for i in range(len)]
(`src/app.py` lines 193 and 212). -/
def windowIndices (n d len : Nat) : List Nat :=
  (List.range len).map (fun i => master_index n (d + i))

/-- Constraint (1) of `src/app.py` (lines 172-174): at most one shift per
master day. -/
def atMostOneShift (y : Nat → Nat → Bool) : Prop :=
  ∀ d < horizon, b2n (y d 0) + b2n (y d 1) ≤ 1

/-- Constraint (2) of `src/app.py` (line 177): exactly 35 shifts overall. -/
def fairDistribution (y : Nat → Nat → Bool) : Prop :=
  ((List.range horizon).map (fun d => b2n (y d 0) + b2n (y d 1))).sum = 35

/-- Constraint (3) of `src/app.py` (lines 179-183): per residue class
modulo 7, exactly 3 day shifts and 2 night shifts. -/
def weeklyStaffing (y : Nat → Nat → Bool) : Prop :=
  ∀ r < 7, ((residueGroup r).map (fun d => b2n (y d 0))).sum = 3 ∧
    ((residueGroup r).map (fun d => b2n (y d 1))).sum = 2

/-- Constraint (4a) of `src/app.py` (lines 190-194): for every nurse n and
every window of 4 consecutive personal days, at most 3 worked shifts among
the rotated master indices. -/
def noFourInARow (y : Nat → Nat → Bool) : Prop :=
  ∀ n < 12, ∀ d < horizon - 3,
    ((windowIndices n d 4).map (fun idx => workedAt y idx)).sum ≤ 3

/-- Constraint (4b) of `src/app.py` (lines 195-197): a night shift is never
followed by a day shift on the next personal day. -/
def restAfterNight (y : Nat → Nat → Bool) : Prop :=
  ∀ n < 12, ∀ d < horizon - 1,
    b2n (y (master_index n d) 1) + b2n (y (master_index n (d + 1)) 0) ≤ 1

/-- Constraint (4c) of `src/app.py` (lines 198-208): when nurse n's personal
day d falls on a Saturday whose next calendar day is a Sunday, day d and
day d+1 are both worked or both off. The start date s is in days since an
epoch Monday, so Python's weekday() of s + n*7 + d is (s + n*7 + d) % 7. -/
def weekendPairing (y : Nat → Nat → Bool) (s : Nat) : Prop :=
  ∀ n < 12, ∀ d < horizon - 1,
    (s + n * daysPerWeek + d) % 7 = 5 →
    (s + n * daysPerWeek + d + 1) % 7 = 6 →
    b2n (y (master_index n d) 0) + b2n (y (master_index n d) 1) =
      b2n (y (master_index n (d + 1)) 0) + b2n (y (master_index n (d + 1)) 1)

/-- Constraint (4d) of `src/app.py` (lines 209-213): every window of 5
consecutive personal days has at least one worked shift. -/
def maxRestLimit (y : Nat → Nat → Bool) : Prop :=
  ∀ n < 12, ∀ d < horizon - 4,
    1 ≤ ((windowIndices n d 5).map (fun idx => workedAt y idx)).sum

/-- Conjunction of every constraint the program adds to the CP-SAT model
(`src/app.py` lines 172-213), for start date s (days since an epoch Monday)
and the enforce_max_rest checkbox value. -/
def scheduleModel (y : Nat → Nat → Bool) (s : Nat) (enforce : Bool) : Prop :=
  atMostOneShift y ∧ fairDistribution y ∧ weeklyStaffing y ∧
    noFourInARow y ∧ restAfterNight y ∧ weekendPairing y s ∧
    (enforce = true → maxRestLimit y)

/-- Week start of a date: d - timedelta(days=d.weekday()) from
`src/app.py` line 330, with dates as days since an epoch Monday. -/
def weekStartOf (tt : Nat) : Nat := tt - tt % 7

/-- nurse_start = start_date + nurse_index * 7 days (`src/app.py` line 318). -/
def nurseStart (s k : Nat) : Nat := s + k * daysPerWeek

/-- nurse_dates = [nurse_start + d days for d in range(horizon)]
(`src/app.py` line 319). -/
def nurseDates (s k : Nat) : List Nat :=
  (List.range horizon).map (fun o => nurseStart s k + o)

/-- Distinct Week Start values of the personal pivot, in ascending order:
the row index of `df_nurse.pivot(index="Week Start", ...)` at
`src/app.py` line 332 (pandas sorts the index; the dates are contiguous and
increasing, so first-occurrence order and ascending order agree). -/
def pivotIndex (s k : Nat) : List Nat :=
  ((nurseDates s k).map weekStartOf).dedup

/-- Row number in which personal day offset o of nurse k lands in the pivot
table: the rank of its Week Start among the distinct Week Start values. -/
def pivotRow (s k o : Nat) : Nat :=
  (pivotIndex s k).indexOf (weekStartOf (nurseStart s k + o))

/-- Number of week rows of the personal pivot table. -/
def pivotRowCount (s k : Nat) : Nat := (pivotIndex s k).length

/-- Weekday column (0 = Monday .. 6 = Sunday, the fixed reindexed column
order of `src/app.py` lines 333-334) in which personal day offset o lands. -/
def pivotWeekdayCol (s k o : Nat) : Nat := (nurseStart s k + o) % 7

/-- nurse_schedule[d] = master_pattern[(d - nurse_index * 7) % 84]
(`src/app.py` lines 320-323). -/
def nurse_schedule (p : List String) (k : Nat) : List String :=
  (List.range horizon).map (fun d => p.getD (master_index k d) "")

/-- Concrete 84-day master pattern satisfying every model constraint for a
Monday start date with the max-rest rule enforced; used to instantiate the
universally quantified theorems below. -/
def feasiblePattern : List String :=
  ["D", "", "D", "D", "D", "", "", "", "", "N", "", "N", "N", "N", "",
   "", "D", "D", "N", "", "", "D", "", "D", "N", "", "N", "N", "N", "",
   "", "D", "", "", "", "D", "D", "N", "", "", "", "", "N", "", "",
   "", "", "D", "D", "", "N", "", "N", "", "", "", "", "N", "", "",
   "", "D", "D", "", "", "", "", "D", "", "", "", "D", "", "", "",
   "D", "D", "", "D", "", "", "D", "", ""]

/-- CP-SAT assignment reading off `feasiblePattern`: y[d,0] is set on "D"
days and y[d,1] on "N" days. -/
def feasibleAssign (d s : Nat) : Bool :=
  if s = 0 then feasiblePattern.getD d "" == "D"
  else if s = 1 then feasiblePattern.getD d "" == "N"
  else false

/-- Concrete session used to instantiate universally quantified theorems. -/
def session0 : Session :=
  { master_schedule := some feasiblePattern, nurse_names := none,
    start_date := none }

/-- Concrete grid: the grid materialized from `feasiblePattern`. -/
def witnessGrid : Grid := fun d n => overall_schedule feasiblePattern d n

/-- Twelve submitted names of which only eleven are non-empty. -/
def elevenNames : List String :=
  ["a", "b", "c", "d", "e", "f", "g", "h", "i", "j", "k", ""]

/-- Twelve submitted names of which one is whitespace-only. -/
def whitespaceNames : List String :=
  ["a", "b", "c", "d", "e", "f", "g", "h", "i", "j", "k", "  "]

set_option maxHeartbeats 4000000 in
/-- feasiblePattern (as a CP-SAT assignment) satisfies every constraint of
the built model for a Monday start with the max-rest rule enabled. -/
lemma feasibleAssign_satisfies_model : scheduleModel feasibleAssign 0 true := by
  unfold scheduleModel atMostOneShift fairDistribution weeklyStaffing
    noFourInARow restAfterNight weekendPairing maxRestLimit
  decide

/-- feasiblePattern satisfies the residue-class staffing invariant. -/
lemma feasiblePattern_staffing : residueStaffingOk feasiblePattern := by
  unfold residueStaffingOk
  decide

set_option maxHeartbeats 1000000 in
/-- The 12 master indices feeding calendar day d are exactly the residue
class of d modulo 7; this is the symmetry-reduction fact. -/
lemma gridRow_indices_perm : ∀ d < 84,
    ((List.range 12).map (fun n => master_index n d)).Perm
      (residueGroup (d % 7)) := by
  decide

lemma weekStartOf_shift (m o : Nat) :
    weekStartOf (m + o) = (m - m % 7) + weekStartOf (m % 7 + o) := by
  unfold weekStartOf
  omega

lemma dedup_map_add (c : Nat) (l : List Nat) :
    (l.map (fun x => c + x)).dedup = l.dedup.map (fun x => c + x) := by
  induction l with
  | nil => simp
  | cons a l ih =>
    by_cases h : a ∈ l
    · have h2 : c + a ∈ l.map (fun x => c + x) := List.mem_map_of_mem _ h
      rw [List.map_cons, List.dedup_cons_of_mem h2, List.dedup_cons_of_mem h,
        ih]
    · have h2 : c + a ∉ l.map (fun x => c + x) := by
        intro hmem
        obtain ⟨b, hb, hcb⟩ := List.mem_map.mp hmem
        have hba : b = a := by omega
        exact h (hba ▸ hb)
      rw [List.map_cons, List.dedup_cons_of_not_mem h2,
        List.dedup_cons_of_not_mem h, List.map_cons, ih]

lemma indexOf_map_add (c x : Nat) (l : List Nat) :
    (l.map (fun y => c + y)).indexOf (c + x) = l.indexOf x := by
  induction l with
  | nil => simp
  | cons a l ih =>
    by_cases h : a = x
    · subst h
      simp
    · rw [List.map_cons, List.indexOf_cons_ne _ (fun hEq => h (by omega)),
        List.indexOf_cons_ne _ h, ih]

/-- Week start values of the 84 personal dates for a start weekday w0,
relative to the week start of the first date. -/
def baseWS (w0 : Nat) : List Nat :=
  (List.range horizon).map (fun o => weekStartOf (w0 + o))

set_option maxHeartbeats 1000000 in
lemma baseWS_dedup : ∀ w0 < 7,
    (baseWS w0).dedup =
      (List.range ((83 + w0) / 7 + 1)).map (fun j => 7 * j) := by
  decide

set_option maxHeartbeats 1000000 in
lemma progression_indexOf : ∀ w0 < 7, ∀ o < 84,
    ((List.range ((83 + w0) / 7 + 1)).map (fun j => 7 * j)).indexOf
      (weekStartOf (w0 + o)) = (o + w0) / 7 := by
  decide

lemma filter_length_lt_of_mem {p : String → Bool} {l : List String}
    {a : String} (ha : a ∈ l) (hpa : p a = false) :
    (l.filter p).length < l.length := by
  induction l with
  | nil => cases ha
  | cons b l ih =>
    rcases List.mem_cons.mp ha with hb | hmem
    · subst hb
      rw [List.filter_cons_of_neg (by simp [hpa])]
      have := List.length_filter_le p l
      simp only [List.length_cons]
      omega
    · by_cases hpb : p b = true
      · rw [List.filter_cons_of_pos hpb]
        simp only [List.length_cons]
        exact Nat.succ_lt_succ (ih hmem)
      · rw [List.filter_cons_of_neg hpb]
        have := ih hmem
        simp only [List.length_cons]
        omega

/-- Shared validation behaviour of the generate click: when the number of
non-empty stripped names is not 12, the click reports the error, does not
invoke the solver, and leaves the session unchanged. -/
lemma generateClick_validation_stop (st : Session) (raw_names : List String)
    (status : CpStatus) (y : Nat → Nat → Bool) (sd : Nat)
    (h : ((raw_names.map (fun s => stripName s)).filter
      (fun nm => nm ≠ "")).length ≠ 12) :
    generateClick st raw_names status y sd =
      { session := st, success := false, solverInvoked := false } := by
  unfold generateClick
  rw [if_pos]
  exact h

/-- C1: for every master pattern of length 84 satisfying the residue-class
staffing constraints (3 "D" and 2 "N" per residue class modulo 7), the
materialized grid grid[d][k] = pattern[(d - 7k) mod 84] has exactly 3 nurses
on day shift and 2 on night shift on every calendar day. -/
theorem residue_staffing_gives_daily_coverage (p : List String)
    (hlen : p.length = horizon) (hres : residueStaffingOk p) :
    ∀ d < horizon,
      (gridRow p d).count "D" = 3 ∧ (gridRow p d).count "N" = 2 := by
  intro d hd
  have hd84 : d < 84 := by simpa [horizon, numWeeks, daysPerWeek] using hd
  have hperm := gridRow_indices_perm d hd84
  have hmap : gridRow p d =
      ((List.range 12).map (fun n => master_index n d)).map
        (fun i => p.getD i "") := by
    simp [gridRow, overall_schedule, List.map_map, Function.comp]
  have h2 : (gridRow p d).Perm
      ((residueGroup (d % 7)).map (fun i => p.getD i "")) := by
    rw [hmap]
    exact hperm.map _
  obtain ⟨h3, h4⟩ := hres (d % 7) (Nat.mod_lt d (by norm_num))
  exact ⟨(h2.count_eq _).trans h3, (h2.count_eq _).trans h4⟩

/-- C1 witness: the concrete feasible pattern satisfies the hypotheses, and
calendar day 10 of its materialized grid has 3 day and 2 night nurses. -/
theorem residue_staffing_gives_daily_coverage_witness :
    feasiblePattern.length = horizon ∧ residueStaffingOk feasiblePattern ∧
      ((gridRow feasiblePattern 10).count "D" = 3 ∧
        (gridRow feasiblePattern 10).count "N" = 2) :=
  ⟨by decide, feasiblePattern_staffing,
    residue_staffing_gives_daily_coverage feasiblePattern (by decide)
      feasiblePattern_staffing 10 (by decide)⟩

/-- C2: every assignment satisfying the built constraint model has, for
every individual k < 12 and every window of 4 consecutive personal days
starting at d ≤ 80, at most 3 worked shifts over the rotated master
indices master_index(k, d) .. master_index(k, d + 3); the constraint is
imposed per individual. -/
theorem model_implies_personal_no_four_in_a_row (y : Nat → Nat → Bool)
    (s : Nat) (enforce : Bool) (hm : scheduleModel y s enforce) :
    ∀ k < 12, ∀ d ≤ 80,
      ((windowIndices k d 4).map (fun idx => workedAt y idx)).sum ≤ 3 := by
  intro k hk d hd
  have hh : d < horizon - 3 := by
    unfold horizon numWeeks daysPerWeek
    omega
  exact hm.2.2.2.1 k hk d hh

/-- C2 witness: the concrete feasible assignment satisfies the whole model
(Monday start, max-rest enforced) and nurse 3's window starting at personal
day 40 has at most 3 worked shifts. -/
theorem model_implies_personal_no_four_in_a_row_witness :
    scheduleModel feasibleAssign 0 true ∧
      ((windowIndices 3 40 4).map
        (fun idx => workedAt feasibleAssign idx)).sum ≤ 3 :=
  ⟨feasibleAssign_satisfies_model,
    model_implies_personal_no_four_in_a_row feasibleAssign 0 true
      feasibleAssign_satisfies_model 3 (by decide) 40 (by decide)⟩

/-- C3 counterexample: with a Wednesday start date (2 days after an epoch
Monday) the personal pivot of nurse 0 has 13 week rows rather than 12, and
personal day offset 6 lands in week row 1 although 6 / 7 = 0. -/
theorem pivot_rows_claim_counterexample :
    pivotRowCount 2 0 = 13 ∧ pivotRow 2 0 6 = 1 ∧ (6 : Nat) / 7 = 0 := by
  decide

/-- C3 (amended): the pivot groups by Monday-aligned calendar week, so for
start weekday w = s mod 7 (0 = Monday) the shift of personal day offset o
lands in week row (o + w) / 7 and weekday column (s + o) mod 7 of the fixed
Monday..Sunday column order; the table has (83 + w) / 7 + 1 week rows,
which equals 12 exactly when the start date is a Monday (13 otherwise). -/
theorem personal_pivot_layout (s k : Nat) :
    pivotRowCount s k = (83 + s % 7) / 7 + 1 ∧
    (pivotRowCount s k = 12 ↔ s % 7 = 0) ∧
    ∀ o < horizon, pivotRow s k o = (o + s % 7) / 7 ∧
      pivotWeekdayCol s k o = (s + o) % 7 := by
  have hmod : nurseStart s k % 7 = s % 7 := by
    unfold nurseStart daysPerWeek
    omega
  have hw0 : s % 7 < 7 := Nat.mod_lt _ (by norm_num)
  have hlist : (nurseDates s k).map weekStartOf =
      (baseWS (s % 7)).map (fun x => (nurseStart s k - s % 7) + x) := by
    unfold nurseDates baseWS
    rw [List.map_map, List.map_map]
    apply List.map_congr_left
    intro o _
    simp only [Function.comp]
    rw [weekStartOf_shift (nurseStart s k) o, hmod]
  have hidx : pivotIndex s k =
      ((baseWS (s % 7)).dedup).map (fun x => (nurseStart s k - s % 7) + x) := by
    unfold pivotIndex
    rw [hlist, dedup_map_add]
  refine ⟨?_, ?_, ?_⟩
  · unfold pivotRowCount
    rw [hidx, List.length_map, baseWS_dedup (s % 7) hw0, List.length_map,
      List.length_range]
  · unfold pivotRowCount
    rw [hidx, List.length_map, baseWS_dedup (s % 7) hw0, List.length_map,
      List.length_range]
    omega
  · intro o ho
    constructor
    · unfold pivotRow
      rw [hidx, weekStartOf_shift (nurseStart s k) o, hmod,
        indexOf_map_add, baseWS_dedup (s % 7) hw0,
        progression_indexOf (s % 7) hw0 o
          (by simpa [horizon, numWeeks, daysPerWeek] using ho)]
    · unfold pivotWeekdayCol nurseStart daysPerWeek
      omega

/-- C3 witness: for a Monday start (s = 0) the pivot has 12 week rows and
personal day offset 6 of nurse 2 lands in week row 0, weekday column 6. -/
theorem personal_pivot_layout_witness :
    pivotRowCount 0 2 = 12 ∧ pivotRow 0 2 6 = (6 + 0 % 7) / 7 ∧
      pivotWeekdayCol 0 2 6 = (0 + 6) % 7 :=
  ⟨((personal_pivot_layout 0 2).2.1).mpr (by decide),
    ((personal_pivot_layout 0 2).2.2 6 (by decide)).1,
    ((personal_pivot_layout 0 2).2.2 6 (by decide)).2⟩

/-- C4: the exchange fails exactly when both addressed cells hold "", in
which case the grid is returned unchanged; in every other case it performs
the two sequential cell writes unconditionally, with no other precondition
checked. -/
theorem exchange_noop_guard (g : Grid) (da na db nb : Nat) :
    ((exchangeShifts g da na db nb).1 = false ↔
      (g da na = "" ∧ g db nb = "")) ∧
    ((exchangeShifts g da na db nb).1 = false →
      (exchangeShifts g da na db nb).2 = g) ∧
    ((exchangeShifts g da na db nb).1 = true →
      (exchangeShifts g da na db nb).2 =
        setCell (setCell g da na (g db nb)) db nb (g da na)) := by
  unfold exchangeShifts
  by_cases h : g da na = "" ∧ g db nb = "" <;> simp [h]

/-- C4 witness: cells (day 1, nurse 0) and (day 5, nurse 0) of the concrete
grid are both off, so the exchange fails and returns the grid unchanged. -/
theorem exchange_noop_guard_witness :
    (exchangeShifts witnessGrid 1 0 5 0).1 = false ∧
      (exchangeShifts witnessGrid 1 0 5 0).2 = witnessGrid := by
  have h := exchange_noop_guard witnessGrid 1 0 5 0
  have h1 : (exchangeShifts witnessGrid 1 0 5 0).1 = false :=
    h.1.mpr (by decide)
  exact ⟨h1, h.2.1 h1⟩

/-- C5: a successful exchange gives cell A the prior value of cell B, gives
cell B the prior value of cell A, and leaves every other cell unchanged. -/
theorem exchange_swap_frame (g : Grid) (da na db nb : Nat)
    (h : (exchangeShifts g da na db nb).1 = true) :
    (exchangeShifts g da na db nb).2 da na = g db nb ∧
    (exchangeShifts g da na db nb).2 db nb = g da na ∧
    ∀ d n, ¬(d = da ∧ n = na) → ¬(d = db ∧ n = nb) →
      (exchangeShifts g da na db nb).2 d n = g d n := by
  unfold exchangeShifts at h ⊢
  by_cases hoff : g da na = "" ∧ g db nb = ""
  · simp [hoff] at h
  · simp only [hoff, if_neg, ite_false]
    refine ⟨?_, ?_, ?_⟩
    · by_cases hAB : da = db ∧ na = nb
      · obtain ⟨h1, h2⟩ := hAB
        subst h1; subst h2
        simp [setCell]
      · simp [setCell, hAB]
    · simp [setCell]
    · intro d n hA hB
      simp [setCell, hA, hB]

/-- C5 witness: exchanging (day 0, nurse 0), which holds "D", with
(day 10, nurse 5), which holds "", swaps the two cells and leaves cell
(day 3, nurse 3) unchanged. -/
theorem exchange_swap_frame_witness :
    (exchangeShifts witnessGrid 0 0 10 5).1 = true ∧
      (exchangeShifts witnessGrid 0 0 10 5).2 0 0 = witnessGrid 10 5 ∧
      (exchangeShifts witnessGrid 0 0 10 5).2 10 5 = witnessGrid 0 0 ∧
      (exchangeShifts witnessGrid 0 0 10 5).2 3 3 = witnessGrid 3 3 := by
  have h1 : (exchangeShifts witnessGrid 0 0 10 5).1 = true := by decide
  have h := exchange_swap_frame witnessGrid 0 0 10 5 h1
  exact ⟨h1, h.1, h.2.1, h.2.2 3 3 (by decide) (by decide)⟩

/-- C6: when the first exchange succeeds, repeating the exchange with the
same coordinates also succeeds and restores both cells to their original
values. -/
theorem exchange_double_swap_restores (g : Grid) (da na db nb : Nat)
    (h : (exchangeShifts g da na db nb).1 = true) :
    (exchangeShifts (exchangeShifts g da na db nb).2 da na db nb).1 = true ∧
    (exchangeShifts (exchangeShifts g da na db nb).2 da na db nb).2 da na =
      g da na ∧
    (exchangeShifts (exchangeShifts g da na db nb).2 da na db nb).2 db nb =
      g db nb := by
  unfold exchangeShifts at h ⊢
  by_cases hoff : g da na = "" ∧ g db nb = ""
  · simp [hoff] at h
  · simp only [hoff, if_neg, ite_false]
    by_cases hAB : da = db ∧ na = nb
    · obtain ⟨h1, h2⟩ := hAB
      subst h1; subst h2
      have ha : g da na ≠ "" := fun hh => hoff ⟨hh, hh⟩
      simp [setCell, ha]
    · have hswap : ¬(g db nb = "" ∧ g da na = "") := by tauto
      simp [setCell, hAB, hswap]

/-- C6 witness: exchanging (day 0, nurse 0) with (day 10, nurse 5) twice
restores both cells of the concrete grid. -/
theorem exchange_double_swap_restores_witness :
    (exchangeShifts witnessGrid 0 0 10 5).1 = true ∧
      (exchangeShifts (exchangeShifts witnessGrid 0 0 10 5).2 0 0 10 5).1 =
        true ∧
      (exchangeShifts (exchangeShifts witnessGrid 0 0 10 5).2 0 0 10 5).2 0 0 =
        witnessGrid 0 0 ∧
      (exchangeShifts (exchangeShifts witnessGrid 0 0 10 5).2 0 0 10 5).2 10 5 =
        witnessGrid 10 5 := by
  have h1 : (exchangeShifts witnessGrid 0 0 10 5).1 = true := by decide
  have h := exchange_double_swap_restores witnessGrid 0 0 10 5 h1
  exact ⟨h1, h.1, h.2.1, h.2.2⟩

/-- C7: on OPTIMAL or FEASIBLE the commit replaces master pattern, names
and start date together; on any other status it reports failure and leaves
the entire session untouched, so no partial commit is observable. -/
theorem solve_commit_atomic (st : Session) (status : CpStatus)
    (y : Nat → Nat → Bool) (valid_names : List String) (sd : Nat) :
    ((status = CpStatus.OPTIMAL ∨ status = CpStatus.FEASIBLE) →
      solveCommit st status y valid_names sd =
        ({ master_schedule := some (buildMasterPattern y),
           nurse_names := some valid_names, start_date := some sd }, true)) ∧
    (¬(status = CpStatus.OPTIMAL ∨ status = CpStatus.FEASIBLE) →
      solveCommit st status y valid_names sd = (st, false)) := by
  unfold solveCommit
  by_cases h : status = CpStatus.OPTIMAL ∨ status = CpStatus.FEASIBLE <;>
    simp [h]

/-- C7 witness: an INFEASIBLE status leaves the concrete session (with its
prior master pattern) untouched, and a FEASIBLE status commits the newly
built pattern, names and start date together. -/
theorem solve_commit_atomic_witness :
    solveCommit session0 CpStatus.INFEASIBLE feasibleAssign ["a"] 3 =
      (session0, false) ∧
    solveCommit session0 CpStatus.FEASIBLE feasibleAssign ["a"] 3 =
      ({ master_schedule := some (buildMasterPattern feasibleAssign),
         nurse_names := some ["a"], start_date := some 3 }, true) :=
  ⟨(solve_commit_atomic session0 CpStatus.INFEASIBLE feasibleAssign ["a"]
      3).2 (by decide),
    (solve_commit_atomic session0 CpStatus.FEASIBLE feasibleAssign ["a"]
      3).1 (Or.inr rfl)⟩

/-- C8: when fewer than 12 of the stripped names are non-empty, the
generate click reports the validation error, never invokes the solver, and
leaves the whole session unchanged. -/
theorem generate_requires_twelve_names (st : Session)
    (raw_names : List String) (status : CpStatus) (y : Nat → Nat → Bool)
    (sd : Nat)
    (h : ((raw_names.map (fun s => stripName s)).filter
      (fun nm => nm ≠ "")).length < 12) :
    generateClick st raw_names status y sd =
      { session := st, success := false, solverInvoked := false } :=
  generateClick_validation_stop st raw_names status y sd (by omega)

/-- C8 witness: eleven non-empty names and one blank yield the validation
error with no state change and no solver call. -/
theorem generate_requires_twelve_names_witness :
    generateClick session0 elevenNames CpStatus.OPTIMAL feasibleAssign 0 =
      { session := session0, success := false, solverInvoked := false } :=
  generate_requires_twelve_names session0 elevenNames CpStatus.OPTIMAL
    feasibleAssign 0 (by decide)

/-- C9: names are stripped before validation, so a whitespace-only name
counts as empty: if one of 12 submitted names strips to "", the click
reports the validation error, generation is not attempted, and the session
is unchanged. -/
theorem whitespace_only_name_counts_empty (st : Session)
    (raw_names : List String) (status : CpStatus) (y : Nat → Nat → Bool)
    (sd : Nat) (hlen : raw_names.length = 12) (a : String)
    (ha : a ∈ raw_names) (hblank : stripName a = "") :
    generateClick st raw_names status y sd =
      { session := st, success := false, solverInvoked := false } := by
  apply generateClick_validation_stop
  have hmem : stripName a ∈ raw_names.map (fun s => stripName s) :=
    List.mem_map_of_mem _ ha
  rw [hblank] at hmem
  have hlt : ((raw_names.map (fun s => stripName s)).filter
      (fun nm => nm ≠ "")).length <
        (raw_names.map (fun s => stripName s)).length :=
    filter_length_lt_of_mem hmem (by simp)
  rw [List.length_map, hlen] at hlt
  omega

/-- C9 witness: twelve names of which one is whitespace-only trigger the
validation error with no state change. -/
theorem whitespace_only_name_counts_empty_witness :
    generateClick session0 whitespaceNames CpStatus.OPTIMAL feasibleAssign 0 =
      { session := session0, success := false, solverInvoked := false } :=
  whitespace_only_name_counts_empty session0 whitespaceNames CpStatus.OPTIMAL
    feasibleAssign 0 (by decide) "  " (by decide) (by decide)

/-- C10: exchanging a cell with itself fails with the both-off error and an
unchanged grid when the cell is off, and otherwise succeeds while leaving
the grid unchanged, because both values are read before either write. -/
theorem exchange_same_cell_identity (g : Grid) (d n : Nat) :
    (g d n = "" → exchangeShifts g d n d n = (false, g)) ∧
    (g d n ≠ "" →
      (exchangeShifts g d n d n).1 = true ∧
        (exchangeShifts g d n d n).2 = g) := by
  constructor
  · intro h
    unfold exchangeShifts
    rw [if_pos ⟨h, h⟩]
  · intro h
    unfold exchangeShifts
    rw [if_neg (by tauto)]
    refine ⟨rfl, ?_⟩
    funext dd nn
    by_cases hc : dd = d ∧ nn = n
    · obtain ⟨h1, h2⟩ := hc
      subst h1; subst h2
      simp [setCell]
    · simp [setCell, hc]

/-- C10 witness: the off cell (day 1, nurse 0) exchanged with itself fails
and leaves the grid unchanged; the worked cell (day 0, nurse 0) exchanged
with itself succeeds and leaves the grid unchanged. -/
theorem exchange_same_cell_identity_witness :
    exchangeShifts witnessGrid 1 0 1 0 = (false, witnessGrid) ∧
      ((exchangeShifts witnessGrid 0 0 0 0).1 = true ∧
        (exchangeShifts witnessGrid 0 0 0 0).2 = witnessGrid) :=
  ⟨(exchange_same_cell_identity witnessGrid 1 0).1 (by decide),
    (exchange_same_cell_identity witnessGrid 0 0).2 (by decide)⟩
